import Mathlib

/-!
Verification development for the schoolflow fee-ledger core.

The definitions below are a shallow embedding of the Python source under
`backend/app/`:  SQLAlchemy rows become Lean structures, the session/database
becomes an explicit `DB` value threaded through the operations, `Decimal` /
`Numeric(10,2)` amounts are exact multiples of 0.01, represented here by
their integer value in minor currency units (`Int`) — sums, comparisons and
differences are preserved exactly by that scaling — and fallible code
returns `Option` / `Except` or an explicit result value.  Randomly generated
identifiers (uuid-based transaction ids and receipt numbers) are passed in as
explicit arguments.  `one_or_none` queries on primary keys are modelled with
`List.find?` (row ids are unique in every database the theorems are applied
to).  Filesystem paths are modelled as strings; the configured receipts
directory is abbreviated to the literal prefix "receipts/".
-/

namespace SchoolFlow

/-- Row of `payment` (backend/app/models/fee/payment.py).  `amount` is
`Numeric(10,2)` (exact decimal), modelled as an integer amount of minor
currency units.  The table carries a
unique constraint on `(provider, provider_txn_id)`; `idempotency_key` is a
plain nullable indexed column. -/
structure Payment where
  id : Nat
  fee_invoice_id : Nat
  provider : String
  provider_txn_id : String
  amount : Int
  status : String
  idempotency_key : Option String
deriving Repr, DecidableEq

/-- Row of `fee_invoice` (backend/app/models/fee/fee_invoice.py).
`invoice_no` is unique; `status` is "pending" or "paid". -/
structure FeeInvoice where
  id : Nat
  student_id : Nat
  invoice_no : String
  period : String
  amount_due : Int
  status : String
deriving Repr, DecidableEq

/-- Row of `receipt` (backend/app/models/fee/receipt.py).  `receipt_no` is
unique; `created_by` is a nullable FK to `user.id`. -/
structure Receipt where
  id : Nat
  payment_id : Nat
  receipt_no : String
  pdf_path : String
  created_by : Option Nat
deriving Repr, DecidableEq

/-- Row of `students` (backend/app/models/student.py); only the fields the
fee core reads. -/
structure Student where
  id : Nat
  name : String
deriving Repr, DecidableEq

/-- Row of `user` (backend/app/models/user.py); only the fields the fee core
reads (`role` is a plain string such as "admin" or "clerk"). -/
structure User where
  id : Nat
  email : String
  role : String
deriving Repr, DecidableEq

/-- Row of `fee_plan` (backend/app/models/fee/fee_plan.py). -/
structure FeePlan where
  id : Nat
  name : String
deriving Repr, DecidableEq

/-- Row of `fee_component` (backend/app/models/fee/fee_component.py). -/
structure FeeComponent where
  id : Nat
  name : String
deriving Repr, DecidableEq

/-- Row of `fee_plan_component` (backend/app/models/fee/fee_plan_component.py). -/
structure FeePlanComponent where
  id : Nat
  fee_plan_id : Nat
  fee_component_id : Nat
  amount : Int
deriving Repr, DecidableEq

/-- Row of `fee_assignment` (backend/app/models/fee/fee_assignment.py).
The model has `student_id`, `fee_plan_id`, a nullable `invoice_id`,
`concession` and `note`; it has NO `amount`, `description` or
`component_name` columns (which the context loader probes with `getattr`). -/
structure FeeAssignment where
  id : Nat
  student_id : Nat
  fee_plan_id : Nat
  invoice_id : Option Nat
deriving Repr, DecidableEq

/-- The relational state the fee core touches, one list per table. -/
structure DB where
  invoices : List FeeInvoice
  payments : List Payment
  receipts : List Receipt
  students : List Student
  users : List User
  feePlans : List FeePlan
  feeComponents : List FeeComponent
  planComponents : List FeePlanComponent
  assignments : List FeeAssignment
deriving Repr, DecidableEq

/-- Next autoincrement id for a table: one more than the largest existing id
(at least 1). -/
def freshId (ids : List Nat) : Nat :=
  ids.foldr (fun i m => max (i + 1) m) 1

/-- A line item as assembled by the context loader: a dict
`{id, description, amount}` whose values may all be absent. -/
structure Item where
  id : Option Nat
  description : Option String
  amount : Option Int
deriving Repr, DecidableEq

/-- `_sum_amounts` (context_loader.py): sum the numeric amounts of the items,
`None` when no item has a numeric amount. -/
def _sum_amounts (items : List Item) : Option Int :=
  let amts := items.filterMap (·.amount)
  if amts.isEmpty then none else some amts.sum

/-- `_all_amounts_none` (context_loader.py): `True` for an empty list or when
every item's amount is absent. -/
def _all_amounts_none (items : List Item) : Bool :=
  items.all (fun it => it.amount == none)

/-- One item built from a `FeePlanComponent` row: the description is the
looked-up `FeeComponent.name` when the FK resolves (the `or comp.description
or comp.name` alternatives are always `None` on this model, and Python treats
an empty-string name as falsy), the amount is the component amount. -/
def compItem (db : DB) (comp : FeePlanComponent) : Item :=
  let comp_name : Option String :=
    if comp.fee_component_id ≠ 0 then
      match db.feeComponents.find? (fun c => c.id == comp.fee_component_id) with
      | some c => if c.name = "" then none else some c.name
      | none => none
    else none
  { id := some comp.id, description := comp_name, amount := some comp.amount }

/-- `_fallback_single_plan_components` (context_loader.py): when exactly one
distinct `fee_plan_id` occurs in `fee_plan_component`, return that plan's
components as items; otherwise (none, or more than one) return no items. -/
def _fallback_single_plan_components (db : DB) : List Item :=
  let distinct_plan_ids := (db.planComponents.map (·.fee_plan_id)).dedup
  match distinct_plan_ids with
  | [only_plan_id] =>
      (db.planComponents.filter (fun c => c.fee_plan_id == only_plan_id)).map
        (compItem db)
  | _ => []

/-- Line-item resolution of `load_invoice_context` (context_loader.py):
1. `FeeAssignment` rows linked to the invoice, else those of its student
   (these rows have no amount/description columns, so every such item has
   `none` amounts);
2. if the items are empty or amount-less, the components of the plan of the
   student's first assignment;
3. if still empty, the global single-plan fallback;
finally an all-`none`-amounts list is normalised to no items. -/
def invoice_items (db : DB) (invoice : FeeInvoice) : List Item :=
  let linked := db.assignments.filter (fun a => a.invoice_id == some invoice.id)
  let assigns :=
    if linked.isEmpty then
      db.assignments.filter (fun a => a.student_id == invoice.student_id)
    else linked
  let items1 : List Item :=
    assigns.map (fun a => { id := some a.id, description := none, amount := none })
  let student :=
    if invoice.student_id ≠ 0 then
      db.students.find? (fun s => s.id == invoice.student_id)
    else none
  let items2 :=
    if items1.isEmpty || _all_amounts_none items1 then
      match student with
      | some s =>
        match db.assignments.find? (fun a => a.student_id == s.id) with
        | some a =>
          if a.fee_plan_id ≠ 0 then
            (db.planComponents.filter (fun c => c.fee_plan_id == a.fee_plan_id)).map
              (compItem db)
          else items1
        | none => items1
      | none => items1
    else items1
  let items3 := if items2.isEmpty then _fallback_single_plan_components db else items2
  if !items3.isEmpty && _all_amounts_none items3 then [] else items3

/-- All payment rows of an invoice (`Payment.fee_invoice_id` filter); the
`ORDER BY created_at DESC` of the source does not change any total. -/
def invoice_payments (db : DB) (invoice_id : Nat) : List Payment :=
  db.payments.filter (fun p => p.fee_invoice_id == invoice_id)

/-- The `paid_amount` computed by `load_invoice_context`: `None` when the
invoice has no payment rows, otherwise the sum of the amounts of ALL its
payment rows — the source applies no status filter. -/
def context_paid_amount (db : DB) (invoice_id : Nat) : Option Int :=
  let payments := invoice_payments db invoice_id
  if payments.isEmpty then none
  else some ((payments.map (·.amount)).sum)

/-- The reconciliation snapshot assembled by `load_invoice_context`
(context_loader.py); only the fields the claims are about. -/
structure InvoiceContext where
  invoice_id : Nat
  invoice_no : String
  amount_due : Option Int
  items : List Item
  paid_amount : Option Int
  items_total : Option Int
  total_due : Option Int
  balance : Option Int
deriving Repr, DecidableEq

/-- `load_invoice_context(invoice_id, db)` (context_loader.py).  `none` models
the `ValueError` when the invoice is missing.  `balance` is
`total_due - paid_amount` when both are present — the source neither rounds
nor clamps it here (the `round(..., 2)` appears only in
`load_receipt_context`). -/
def load_invoice_context (db : DB) (invoice_id : Nat) : Option InvoiceContext :=
  match db.invoices.find? (fun i => i.id == invoice_id) with
  | none => none
  | some invoice =>
    let amount : Option Int := some invoice.amount_due
    let items := invoice_items db invoice
    let paid_amount := context_paid_amount db invoice.id
    let items_total := _sum_amounts items
    let total_due := match amount with
      | some a => some a
      | none => items_total
    let balance := match total_due, paid_amount with
      | some t, some p => some (t - p)
      | _, _ => none
    some { invoice_id := invoice.id, invoice_no := invoice.invoice_no,
           amount_due := amount, items := items, paid_amount := paid_amount,
           items_total := items_total, total_due := total_due, balance := balance }

/-- `_paid_total_for_invoice` (fees_service.py): sum of the amounts of ALL
payment rows of the invoice — no status filter (`amount` is a non-null
column, so the defensive `None` skip never fires). -/
def _paid_total_for_invoice (db : DB) (invoice_id : Nat) : Int :=
  ((db.payments.filter (fun p => p.fee_invoice_id == invoice_id)).map (·.amount)).sum

/-- Python's `str.strip()`: drop leading and trailing whitespace (defined
over the character list so that it evaluates by kernel reduction). -/
def stripStr (s : String) : String :=
  String.mk (((s.data.dropWhile Char.isWhitespace).reverse.dropWhile
    Char.isWhitespace).reverse)

/-- `get_invoice_by_no` (invoice_repo.py): lookup by stripped invoice number. -/
def get_invoice_by_no (db : DB) (invoice_no : String) : Option FeeInvoice :=
  db.invoices.find? (fun i => i.invoice_no == stripStr invoice_no)

/-- `create_invoice` (invoice_repo.py): normalise `invoice_no`, insert and
commit.  A unique-constraint violation on `invoice_no` (modelled as: a row
with that number already exists) is rolled back and the canonical existing
row is returned instead — insert-or-get. -/
def create_invoice (db : DB) (student_id : Nat) (invoice_no : String)
    (period : String) (amount_due : Int) : DB × FeeInvoice :=
  let no := stripStr invoice_no
  match db.invoices.find? (fun i => i.invoice_no == no) with
  | some existing => (db, existing)
  | none =>
    let inv : FeeInvoice :=
      { id := freshId (db.invoices.map (·.id)), student_id := student_id,
        invoice_no := no, period := period, amount_due := amount_due,
        status := "pending" }
    ({ db with invoices := db.invoices ++ [inv] }, inv)

/-- `create_payment` (fee_repo.py): insert and commit a payment row.  The
commit raises `IntegrityError` (modelled as `none`) exactly when the
`(provider, provider_txn_id)` unique constraint `u_provider_txn` is violated;
`idempotency_key` itself carries no unique constraint in the model. -/
def create_payment (db : DB) (fee_invoice_id : Nat)
    (provider provider_txn_id : String) (amount : Int) (status : String)
    (idempotency_key : Option String) : Option (DB × Payment) :=
  if db.payments.any
      (fun p => p.provider == provider && p.provider_txn_id == provider_txn_id) then
    none
  else
    let p : Payment :=
      { id := freshId (db.payments.map (·.id)), fee_invoice_id := fee_invoice_id,
        provider := provider, provider_txn_id := provider_txn_id,
        amount := amount, status := status, idempotency_key := idempotency_key }
    some ({ db with payments := db.payments ++ [p] }, p)

/-- `mark_invoice_paid` (invoice_repo.py / fee_repo.py): set the invoice's
status to "paid" and commit. -/
def mark_invoice_paid (db : DB) (invoice_id : Nat) : DB :=
  { db with invoices := (db.invoices.map
      (fun i => if i.id == invoice_id then { i with status := "paid" } else i)) }

/-- `create_receipt` (fee_repo.py): insert and commit a receipt row (the
webhook path's receipt; `created_by` is not set there).  `none` models the
`IntegrityError` on a duplicate `receipt_no`. -/
def create_receipt_row (db : DB) (payment_id : Nat) (receipt_no pdf_path : String) :
    Option (DB × Receipt) :=
  if db.receipts.any (fun r => r.receipt_no == receipt_no) then none
  else
    let r : Receipt :=
      { id := freshId (db.receipts.map (·.id)), payment_id := payment_id,
        receipt_no := receipt_no, pdf_path := pdf_path, created_by := none }
    some ({ db with receipts := db.receipts ++ [r] }, r)

/-- `_decimal(x) or fallback` in Python: `Decimal("0")` is falsy, so an absent
amount AND a zero amount both fall back. -/
def decimalOr (x : Option Int) (fallback : Int) : Int :=
  match x with
  | none => fallback
  | some a => if a = 0 then fallback else a

/-- The optional `payment` dict accepted by `generate_invoice_for_student`. -/
structure PaymentRequest where
  provider : Option String
  provider_txn_id : Option String
  amount : Option Int
  status : Option String
  idempotency_key : Option String
deriving Repr, DecidableEq

/-- `FeesService.generate_invoice_for_student` (fees_service.py).
`genTxnId` stands for the `manual-{uuid4}` fallback transaction id.  The PDF
renders are external side effects without database impact and are omitted.
Sequencing follows the source: existing-invoice early return; placeholder
insert with `amount_due = 0`; `amount_due := items_total + extra`; optional
immediate payment with the `IntegrityError`-as-replay catch; then the
mark-paid evaluation `total_paid >= amount_due or total_paid >= paid_amount`. -/
def generate_invoice_for_student (db : DB) (student_id : Nat)
    (invoice_no period : String) (amount : Option Int)
    (payment : Option PaymentRequest) (genTxnId : String) : DB × FeeInvoice :=
  match get_invoice_by_no db invoice_no with
  | some existing => (db, existing)
  | none =>
    let step1 := create_invoice db student_id invoice_no period 0
    let db1 := step1.1
    let inv0 := step1.2
    let items_total : Option Int :=
      match load_invoice_context db1 inv0.id with
      | some ctx => ctx.items_total
      | none => none
    let base_total := match items_total with
      | some t => t
      | none => 0
    let extra := match amount with
      | some a => a
      | none => 0
    let final_due := base_total + extra
    let db2 := { db1 with invoices := (db1.invoices.map
        (fun i => if i.id == inv0.id then { i with amount_due := final_due } else i)) }
    let inv1 := { inv0 with amount_due := final_due }
    match payment with
    | none => (db2, inv1)
    | some req =>
      let provider_txn_id := req.provider_txn_id.getD genTxnId
      let paid_amount := decimalOr req.amount inv1.amount_due
      let idempotency_key := req.idempotency_key.getD provider_txn_id
      match create_payment db2 inv1.id (req.provider.getD "manual") provider_txn_id
          paid_amount (req.status.getD "captured") (some idempotency_key) with
      | none => (db2, inv1)
      | some (db3, _recorded) =>
        let total_paid := _paid_total_for_invoice db3 inv1.id
        if total_paid ≥ inv1.amount_due ∨ total_paid ≥ paid_amount then
          (mark_invoice_paid db3 inv1.id, { inv1 with status := "paid" })
        else (db3, inv1)

/-- The parsed JSON webhook payload.  A JSON `null` and an absent key both
come out of `data.get(...)` as `None`, hence a single `none`. -/
structure WebhookPayload where
  invoice_id : Option Nat
  provider_txn_id : Option String
  amount : Option Int
  idempotency_key : Option String
deriving Repr, DecidableEq

/-- Outcome of `handle_webhook_mark_paid`: a raised `ValueError` or
propagated `IntegrityError` (`error`), the idempotent-replay no-op
(`ignored`), success (`ok`), or a render exception escaping after the
payment/receipt rows were already committed (`renderFailed`). -/
inductive WebhookResult where
  | error (msg : String)
  | ignored
  | ok (receipt_no pdf_path : String)
  | renderFailed (receipt_no : String)
deriving Repr, DecidableEq

/-- `FeesService.handle_webhook_mark_paid` (fees_service.py).  `sigOk` is the
gateway's signature verdict, `genTxnId` the `auto-{uuid4}` fallback txn id,
`genReceiptNo` the generated `REC-...` number, `renderOk` whether the external
PDF render succeeds.  Every repository call commits immediately, so the rows
inserted before a failed render stay in the returned state: the source has no
try/except around `render_receipt_pdf` here. -/
def handle_webhook_mark_paid (db : DB) (payload : WebhookPayload) (sigOk : Bool)
    (genTxnId genReceiptNo : String) (renderOk : Bool) : DB × WebhookResult :=
  if !sigOk then (db, .error "Webhook verification failed")
  else
    match payload.invoice_id with
    | none => (db, .error "Missing invoice_id in webhook payload")
    | some invoice_id =>
      match db.invoices.find? (fun i => i.id == invoice_id) with
      | none => (db, .error "Invoice not found")
      | some invoice =>
        let provider_txn_id := payload.provider_txn_id.getD genTxnId
        let paid_amount := decimalOr payload.amount invoice.amount_due
        let idempotency_key := payload.idempotency_key.getD provider_txn_id
        if db.payments.any (fun p => p.idempotency_key == some idempotency_key) then
          (db, .ignored)
        else
          match create_payment db invoice_id "fake" provider_txn_id paid_amount
              "captured" (some idempotency_key) with
          | none => (db, .ignored)
          | some (db1, payment) =>
            let total_paid := _paid_total_for_invoice db1 invoice_id
            let db2 := if total_paid ≥ invoice.amount_due then
                mark_invoice_paid db1 invoice.id
              else db1
            let pdf_path := "receipts/" ++ genReceiptNo ++ ".pdf"
            match create_receipt_row db2 payment.id genReceiptNo pdf_path with
            | none => (db2, .error "duplicate receipt_no")
            | some (db3, _receipt) =>
              if renderOk then (db3, .ok genReceiptNo pdf_path)
              else (db3, .renderFailed genReceiptNo)

/-- The payment row `handle_webhook_mark_paid` inserts on its success path
(spelled out for the run-shape lemma below). -/
def webhookInsertedPayment (db : DB) (payload : WebhookPayload) (iid : Nat)
    (invoice : FeeInvoice) (g : String) : Payment :=
  { id := freshId (db.payments.map (·.id)), fee_invoice_id := iid,
    provider := "fake", provider_txn_id := payload.provider_txn_id.getD g,
    amount := decimalOr payload.amount invoice.amount_due,
    status := "captured",
    idempotency_key :=
      some (payload.idempotency_key.getD (payload.provider_txn_id.getD g)) }

/-- The database state `handle_webhook_mark_paid` leaves behind on its
success path: payment inserted, invoice marked paid when the cumulative
total reaches `amount_due`, receipt row committed. -/
def webhookFinalDB (db : DB) (payload : WebhookPayload) (iid : Nat)
    (invoice : FeeInvoice) (g n : String) : DB :=
  let pay := webhookInsertedPayment db payload iid invoice g
  let db1 : DB := { db with payments := db.payments ++ [pay] }
  let db2 : DB :=
    if _paid_total_for_invoice db1 iid ≥ invoice.amount_due then
      mark_invoice_paid db1 invoice.id
    else db1
  let rec1 : Receipt :=
    { id := freshId (db2.receipts.map (·.id)), payment_id := pay.id,
      receipt_no := n, pdf_path := "receipts/" ++ n ++ ".pdf",
      created_by := none }
  { db2 with receipts := db2.receipts ++ [rec1] }

/-- The typed error conditions `ReceiptService` raises as `HTTPException`s. -/
inductive SvcError where
  | notFound (msg : String)
  | conflict (msg : String)
  | forbidden
  | renderFailed
deriving Repr, DecidableEq

/-- Python's `str.lower()` (defined over the character list so that it
evaluates by kernel reduction). -/
def lowerStr (s : String) : String :=
  String.mk (s.data.map Char.toLower)

/-- `ReceiptService.validate_payment_for_receipt` (receipt_service.py):
payment must exist, resolve to an invoice, the invoice to a student, and the
payment status must be paid/posted/captured (case-insensitively). -/
def validate_payment_for_receipt (db : DB) (payment_id : Nat) :
    Except SvcError Payment :=
  match db.payments.find? (fun p => p.id == payment_id) with
  | none => .error (.notFound "Payment not found")
  | some payment =>
    match db.invoices.find? (fun i => i.id == payment.fee_invoice_id) with
    | none => .error (.notFound "Invoice not found for payment")
    | some invoice =>
      match db.students.find? (fun s => s.id == invoice.student_id) with
      | none => .error (.notFound "Student not found for invoice")
      | some _student =>
        if (["paid", "posted", "captured"] : List String).contains
            (lowerStr payment.status) then
          .ok payment
        else .error (.conflict "Payment is not in a paid or posted state")

/-- `user.role in ("admin", "clerk")`. -/
def isAdminOrClerk (u : User) : Bool :=
  u.role == "admin" || u.role == "clerk"

/-- The `ORDER BY id ASC ... first()` query over admin/clerk users. -/
def earliestAdminClerk (db : DB) : Option User :=
  (db.users.filter isAdminOrClerk).argmin (·.id)

/-- The fall-through part of `ReceiptService._resolve_created_by`
(receipt_service.py), reached when no explicit id was given or the explicit
id matched no user: earliest admin/clerk by ascending id, then the existing
`system@example.com` user, then a freshly synthesized system admin (flushed
into the session, hence the returned state).  The `except`-guarded
`return 1` of the source is unreachable in this model. -/
def resolve_fallback (db : DB) : Except SvcError (DB × Nat) :=
  match earliestAdminClerk db with
  | some fallback_user => .ok (db, fallback_user.id)
  | none =>
    match db.users.find? (fun u => u.email == "system@example.com") with
    | some existing => .ok (db, existing.id)
    | none =>
      let sys_user : User :=
        { id := freshId (db.users.map (·.id)), email := "system@example.com",
          role := "admin" }
      .ok ({ db with users := db.users ++ [sys_user] }, sys_user.id)

/-- `ReceiptService._resolve_created_by` (receipt_service.py).  An EXISTING
explicit user with a non-admin/clerk role is rejected as forbidden; an
explicit id matching no user silently falls through to the fallback chain
(`resolve_fallback`). -/
def _resolve_created_by (db : DB) (created_by : Option Nat) :
    Except SvcError (DB × Nat) :=
  match created_by with
  | some cid =>
    match db.users.find? (fun u => u.id == cid) with
    | some user =>
      if isAdminOrClerk user then .ok (db, cid) else .error .forbidden
    | none => resolve_fallback db
  | none => resolve_fallback db

/-- `ReceiptService._compute_pdf_path`: deterministic path derived from the
receipt number under the configured receipts directory. -/
def _compute_pdf_path (receipt_no : String) : String :=
  "receipts/" ++ receipt_no ++ ".pdf"

/-- `ReceiptService.create_receipt_and_render` (receipt_service.py).
`genReceiptNo` stands for the generated `REC-{uuid4}` number, `renderOk` for
the outcome of the external PDF render.  Nothing is committed before the
render: the synthesized system user and the new receipt row are only flushed,
so the rollback on a render failure restores the caller's state unchanged.
On success the receipt's `pdf_path` is (re)assigned from its own
`receipt_no` and everything is committed. -/
def create_receipt_and_render (db : DB) (payment_id : Nat)
    (receipt_no_arg : Option String) (created_by : Option Nat)
    (genReceiptNo : String) (renderOk : Bool) : DB × Except SvcError Receipt :=
  match validate_payment_for_receipt db payment_id with
  | .error e => (db, .error e)
  | .ok payment =>
    if payment.fee_invoice_id = 0 then
      (db, .error (.notFound "Payment is not linked to any invoice"))
    else
      match db.invoices.find? (fun i => i.id == payment.fee_invoice_id) with
      | none => (db, .error (.notFound "Invoice not found"))
      | some _invoice =>
        let receipt_no := receipt_no_arg.getD genReceiptNo
        match _resolve_created_by db created_by with
        | .error e => (db, .error e)
        | .ok (db1, created_by_id) =>
          match db1.receipts.find? (fun r => r.payment_id == payment_id) with
          | some existing =>
            let pdf_path := _compute_pdf_path existing.receipt_no
            if !renderOk then (db, .error .renderFailed)
            else
              let db3 := { db1 with receipts := (db1.receipts.map
                  (fun r => if r.id == existing.id then { r with pdf_path := pdf_path }
                            else r)) }
              (db3, .ok { existing with pdf_path := pdf_path })
          | none =>
            if db1.receipts.any (fun r => r.receipt_no == receipt_no) then
              (db, .error (.conflict "duplicate receipt_no"))
            else
              let rnew : Receipt :=
                { id := freshId (db1.receipts.map (·.id)), payment_id := payment_id,
                  receipt_no := receipt_no,
                  pdf_path := _compute_pdf_path receipt_no,
                  created_by := some created_by_id }
              let db2 := { db1 with receipts := db1.receipts ++ [rnew] }
              let pdf_path := _compute_pdf_path rnew.receipt_no
              if !renderOk then (db, .error .renderFailed)
              else
                let db3 := { db2 with receipts := (db2.receipts.map
                    (fun r => if r.id == rnew.id then { r with pdf_path := pdf_path }
                              else r)) }
                (db3, .ok { rnew with pdf_path := pdf_path })

/-! Concrete databases used by the counterexamples and witnesses. -/

/-- An empty database. -/
def dbEmpty : DB := ⟨[], [], [], [], [], [], [], [], []⟩

/-- Two invoices of 100; invoice 1 has a single payment of 40 in status
"failed"; invoice 2 has no payments. -/
def dbFailedPayment : DB :=
  { dbEmpty with
    invoices := [⟨1, 1, "INV-1", "2025-01", 100, "pending"⟩,
                 ⟨2, 1, "INV-2", "2025-01", 100, "pending"⟩],
    payments := [⟨1, 1, "fake", "T1", 40, "failed", none⟩] }

/-- One invoice of 100 with captured payments of 150: an overpayment. -/
def dbOverpaid : DB :=
  { dbEmpty with
    invoices := [⟨1, 1, "INV-1", "2025-01", 100, "pending"⟩],
    payments := [⟨1, 1, "fake", "T1", 150, "captured", none⟩] }

/-- The C1 failing input: empty database, invoice generated with an extra
amount of 1500 and an immediate partial payment of 700. -/
def c1Run : DB × FeeInvoice :=
  generate_invoice_for_student dbEmpty 1 "INV-1" "2025-01" (some 1500)
    (some { provider := none, provider_txn_id := some "T1", amount := some 700,
            status := none, idempotency_key := some "K1" }) "G"

/-- One pending invoice of 100 and nothing else (webhook render-failure
scenario). -/
def dbWebhook : DB :=
  { dbEmpty with invoices := [⟨1, 1, "INV-1", "2025-01", 100, "pending"⟩] }

/-- The C7 failing input: a webhook for invoice 1 of `dbWebhook`, full amount,
whose external PDF render fails. -/
def c7Run : DB × WebhookResult :=
  handle_webhook_mark_paid dbWebhook
    { invoice_id := some 1, provider_txn_id := some "T7", amount := some 100,
      idempotency_key := some "K7" } true "G" "REC-7" false

/-- Two fee plans exist, but only plan 1 is referenced from
`fee_plan_component`. -/
def dbTwoPlans : DB :=
  { dbEmpty with
    feePlans := [⟨1, "Plan A"⟩, ⟨2, "Plan B"⟩],
    feeComponents := [⟨1, "Tuition"⟩],
    planComponents := [⟨1, 1, 1, 500⟩] }

/-- A single admin user with id 1. -/
def dbOneAdmin : DB :=
  { dbEmpty with users := [⟨1, "admin@example.com", "admin"⟩] }

/-- An admin (id 1) and a student-role user (id 2). -/
def dbAdminAndStudent : DB :=
  { dbEmpty with users := [⟨1, "admin@example.com", "admin"⟩,
                           ⟨2, "kid@example.com", "student"⟩] }

/-- A database ready for receipt creation: one captured payment of 100 on
invoice 1, the student and an admin user present. -/
def dbReceipt : DB :=
  { dbEmpty with
    invoices := [⟨1, 1, "INV-1", "2025-01", 100, "pending"⟩],
    payments := [⟨1, 1, "fake", "T1", 100, "captured", some "K"⟩],
    students := [⟨1, "Asha"⟩],
    users := [⟨1, "admin@example.com", "admin"⟩] }

/-! Helper lemmas. -/

/-- `find?` commutes with mapping a function that does not change the
predicate's verdict. -/
theorem find?_map_comm {α : Type} (f : α → α) (p : α → Bool)
    (hf : ∀ x, p (f x) = p x) (l : List α) :
    (l.map f).find? p = (l.find? p).map f := by
  rw [List.find?_map]
  have hp : p ∘ f = p := funext hf
  rw [hp]

/-- Every member id is below the next autoincrement id. -/
theorem lt_freshId_of_mem {ids : List Nat} {i : Nat} (h : i ∈ ids) :
    i < freshId ids := by
  induction ids with
  | nil => cases h
  | cons a t ih =>
    have hstep : freshId (a :: t) = max (a + 1) (freshId t) := rfl
    rcases List.mem_cons.mp h with h1 | h1
    · subst h1
      exact lt_of_lt_of_le (Nat.lt_succ_self i) (hstep ▸ le_max_left _ _)
    · exact lt_of_lt_of_le (ih h1) (hstep ▸ le_max_right _ _)

/-- The next autoincrement id is not an existing id. -/
theorem freshId_not_mem (ids : List Nat) : freshId ids ∉ ids :=
  fun h => absurd (lt_freshId_of_mem h) (lt_irrefl _)

/-! ### C1 -/

/-- C1: the claim says an invoice becomes `paid` iff the cumulative captured
payments reach `amount_due`.  The code disagrees: on the immediate-payment
path of `generate_invoice_for_student` the guard
`total_paid >= amount_due or total_paid >= paid_amount` is trivially true for
the payment just recorded, so a partial payment of 700 against an
`amount_due` of 1500 already marks the invoice paid — contradicting the
claim and the code's own comment ("Mark paid if SUM(payments) >= amount_due"). -/
theorem C1_partial_payment_marks_paid :
    c1Run.2.status = "paid" ∧ c1Run.2.amount_due = 1500 ∧
    _paid_total_for_invoice c1Run.1 c1Run.2.id = 700 ∧ (700 : Int) < 1500 := by
  refine ⟨by decide, by decide, by decide, by norm_num⟩

/-! ### C2 -/

/-- C2 counterexample: the claim computes `balance = total_due − paid_amount`
with `paid_amount` the sum of CAPTURED payments.  On `dbFailedPayment`
invoice 1 (total_due 100, one payment of 40 in status "failed", captured sum
0) the claim predicts a balance of 100, but `load_invoice_context` counts the
failed payment and returns 60. -/
theorem C2_counterexample :
    ((load_invoice_context dbFailedPayment 1).map (·.balance)
      = some (some 60)) ∧
    ((invoice_payments dbFailedPayment 1).filter
      (fun p => p.status == "captured")) = [] ∧
    ((load_invoice_context dbFailedPayment 1).map (·.balance)
      ≠ some (some ((100 : Int) - 0))) := by
  refine ⟨by decide, by decide, by decide⟩

/-- C2 as amended: in the snapshot of `load_invoice_context`,
`total_due` is the invoice's `amount_due` and `balance` is
`total_due − paid_amount` whenever both are present, where `paid_amount`
sums ALL the invoice's payments regardless of status; the subtraction is
neither rounded nor clamped, so an overpayment surfaces as a negative
balance. -/
theorem C2_balance_unclamped (db : DB) (invoice_id : Nat)
    (ctx : InvoiceContext)
    (h : load_invoice_context db invoice_id = some ctx) :
    ctx.total_due = ctx.amount_due ∧
    ctx.paid_amount = context_paid_amount db invoice_id ∧
    (∀ t p, ctx.total_due = some t → ctx.paid_amount = some p →
      ctx.balance = some (t - p)) := by
  unfold load_invoice_context at h
  cases hf : db.invoices.find? (fun i => i.id == invoice_id) with
  | none => rw [hf] at h; cases h
  | some invoice =>
    rw [hf] at h
    have hid : invoice.id = invoice_id := by
      have := List.find?_some hf
      simpa using this
    cases h
    refine ⟨rfl, by rw [hid], ?_⟩
    intro t p ht hp
    have ht2 : invoice.amount_due = t := by simpa using ht
    have hp2 : context_paid_amount db invoice.id = some p := by simpa using hp
    subst ht2
    show (match (some invoice.amount_due : Option Int),
        context_paid_amount db invoice.id with
      | some a, some b => some (a - b)
      | _, _ => none) = some (invoice.amount_due - p)
    rw [hp2]

/-- Witness for C2: on the overpaid database the amended equations hold and
the balance comes out negative (−50), unclamped. -/
theorem C2_balance_unclamped_witness :
    ∃ ctx, load_invoice_context dbOverpaid 1 = some ctx ∧
      (ctx.total_due = ctx.amount_due ∧
       ctx.paid_amount = context_paid_amount dbOverpaid 1 ∧
       (∀ t p, ctx.total_due = some t → ctx.paid_amount = some p →
         ctx.balance = some (t - p))) ∧
      ctx.balance = some (-50) := by
  refine ⟨_, rfl, C2_balance_unclamped dbOverpaid 1 _ rfl, by decide⟩

/-! ### C3 -/

/-- C3 counterexample: the claim says `paid_amount` sums captured payments
only and is 0 when there are none.  On `dbFailedPayment` invoice 1 the only
payment is in status "failed" (captured sum would be 0), yet the snapshot
reports 40; and on invoice 2, which has no payments at all, the snapshot
reports `None`, not 0. -/
theorem C3_counterexample :
    ((load_invoice_context dbFailedPayment 1).map (·.paid_amount)
      = some (some 40)) ∧
    ((invoice_payments dbFailedPayment 1).filter
      (fun p => p.status == "captured")) = [] ∧
    some (some (40 : Int)) ≠ some (some (0 : Int)) ∧
    ((load_invoice_context dbFailedPayment 2).map (·.paid_amount)
      = some none) := by
  refine ⟨by decide, by decide, by decide, by decide⟩

/-- C3 as amended: the snapshot's `paid_amount` is the sum of the amounts of
ALL the invoice's payment rows regardless of status, and is `None` (not 0)
when the invoice has no payment rows. -/
theorem C3_paid_amount_sums_all_payments (db : DB) (invoice_id : Nat)
    (ctx : InvoiceContext)
    (h : load_invoice_context db invoice_id = some ctx) :
    ctx.paid_amount =
      (if (invoice_payments db invoice_id).isEmpty then none
       else some ((invoice_payments db invoice_id).map (·.amount)).sum) := by
  unfold load_invoice_context at h
  cases hf : db.invoices.find? (fun i => i.id == invoice_id) with
  | none => rw [hf] at h; cases h
  | some invoice =>
    rw [hf] at h
    have hid : invoice.id = invoice_id := by
      have := List.find?_some hf
      simpa using this
    cases h
    simp only [context_paid_amount, hid]

/-- Witness for C3 on `dbFailedPayment`: the status-blind sum over invoice 1
evaluates to 40. -/
theorem C3_paid_amount_witness :
    ∃ ctx, load_invoice_context dbFailedPayment 1 = some ctx ∧
      ctx.paid_amount =
        (if (invoice_payments dbFailedPayment 1).isEmpty then none
         else some ((invoice_payments dbFailedPayment 1).map (·.amount)).sum) ∧
      ctx.paid_amount = some 40 := by
  refine ⟨_, rfl, C3_paid_amount_sums_all_payments dbFailedPayment 1 _ rfl,
    by decide⟩

/-! ### C7 -/

/-- C7 counterexample: the claim says every DB row created in the same
logical operation is rolled back when rendering fails, also for the receipt
step of `handle_webhook_mark_paid`.  But that path commits the payment,
status change and receipt row before rendering (`fee_repo.create_receipt`
commits) and has no try/except around the render call, so a render failure
leaves the receipt row persisted, pointing at a PDF that was never written. -/
theorem C7_counterexample :
    c7Run.2 = .renderFailed "REC-7" ∧
    (c7Run.1.receipts.any (fun r => r.receipt_no == "REC-7")) = true ∧
    c7Run.1 ≠ dbWebhook := by
  refine ⟨by decide, by decide, by decide⟩

/-- C7 as amended: the rollback guarantee holds for
`ReceiptService.create_receipt_and_render` — nothing there is committed
before the render, so when rendering fails the returned state is exactly the
caller's state (the flushed receipt row and any synthesized system user are
discarded) — while the webhook path persists its rows (counterexample
above). -/
theorem C7_receipt_service_rolls_back_on_render_failure (db : DB)
    (payment_id : Nat) (receipt_no_arg : Option String)
    (created_by : Option Nat) (genReceiptNo : String) :
    (create_receipt_and_render db payment_id receipt_no_arg created_by
      genReceiptNo false).1 = db := by
  unfold create_receipt_and_render
  repeat first | rfl | split
  · dsimp only
    split
    · rfl
    · rfl
  · rename_i h
    exact absurd rfl h

/-! ### C8 -/

/-- C8 counterexample: the claim grants the global fallback if and only if
exactly one fee-plan exists system-wide.  The code instead counts the
distinct `fee_plan_id` values inside `fee_plan_component`: on `dbTwoPlans`
two fee plans exist, but only plan 1 has components, and the fallback happily
returns plan 1's components instead of declining. -/
theorem C8_counterexample :
    _fallback_single_plan_components dbTwoPlans
      = [{ id := some 1, description := some "Tuition", amount := some 500 }] ∧
    dbTwoPlans.feePlans.length = 2 ∧
    _fallback_single_plan_components dbTwoPlans ≠ [] := by
  refine ⟨by decide, by decide, by decide⟩

/-- C8 as amended: the fallback keys on the set of distinct `fee_plan_id`
values referenced by `fee_plan_component` rows — it returns the components
of the single referenced plan when that set is a singleton, and yields no
items whenever the referenced plans number zero or more than one (it
declines to guess), regardless of how many `FeePlan` rows exist. -/
theorem C8_single_plan_fallback (db : DB) :
    (((db.planComponents.map (·.fee_plan_id)).dedup.length ≠ 1) →
      _fallback_single_plan_components db = []) ∧
    (∀ pid, (db.planComponents.map (·.fee_plan_id)).dedup = [pid] →
      _fallback_single_plan_components db =
        (db.planComponents.filter (fun c => c.fee_plan_id == pid)).map
          (compItem db)) := by
  constructor
  · intro hne
    unfold _fallback_single_plan_components
    cases hd : (db.planComponents.map (·.fee_plan_id)).dedup with
    | nil => rfl
    | cons a t =>
      cases t with
      | nil => exact absurd (by rw [hd]; rfl) hne
      | cons b t2 => rfl
  · intro pid hd
    unfold _fallback_single_plan_components
    rw [hd]

/-- Witness for C8: on `dbTwoPlans` the referenced-plan set is the singleton
`[1]`, and both directions of the amended statement evaluate as stated. -/
theorem C8_single_plan_fallback_witness :
    ((dbTwoPlans.planComponents.map (·.fee_plan_id)).dedup = [1]) ∧
    _fallback_single_plan_components dbTwoPlans =
      (dbTwoPlans.planComponents.filter (fun c => c.fee_plan_id == 1)).map
        (compItem dbTwoPlans) ∧
    (((dbEmpty.planComponents.map (·.fee_plan_id)).dedup.length ≠ 1) ∧
      _fallback_single_plan_components dbEmpty = []) := by
  refine ⟨by decide, (C8_single_plan_fallback dbTwoPlans).2 1 (by decide),
    by decide, (C8_single_plan_fallback dbEmpty).1 (by decide)⟩

/-! ### C9 -/

/-- C9 counterexample: the claim says an explicit `created_by` that does not
resolve to an admin/clerk user is rejected as forbidden.  But when the id
matches no user at all, `_resolve_created_by` silently falls through to the
fallback chain: on `dbOneAdmin` the dangling id 99 yields the fallback admin
id 1 instead of a forbidden error. -/
theorem C9_counterexample :
    _resolve_created_by dbOneAdmin (some 99) = .ok (dbOneAdmin, 1) ∧
    (dbOneAdmin.users.find? (fun u => u.id == 99)) = none := by
  refine ⟨rfl, by decide⟩

/-- C9 as amended: an explicit id that resolves to an existing admin/clerk is
used; one that resolves to an existing user of another role is rejected as
forbidden; one that matches no user is silently ignored and the fallback
chain applies.  With no explicit id the earliest admin/clerk by ascending id
is used; resolution never fails in that case, and when no admin/clerk exists
at all a system admin user (`system@example.com`) is reused or synthesized,
so the resulting `created_by` is always a concrete user id. -/
theorem C9_resolve_created_by (db : DB) :
    (∀ cid u, db.users.find? (fun v => v.id == cid) = some u →
      isAdminOrClerk u = true → _resolve_created_by db (some cid) = .ok (db, cid)) ∧
    (∀ cid u, db.users.find? (fun v => v.id == cid) = some u →
      isAdminOrClerk u = false →
      _resolve_created_by db (some cid) = .error .forbidden) ∧
    (∀ cid, db.users.find? (fun v => v.id == cid) = none →
      _resolve_created_by db (some cid) = _resolve_created_by db none) ∧
    (∀ u, earliestAdminClerk db = some u →
      _resolve_created_by db none = .ok (db, u.id) ∧ isAdminOrClerk u = true ∧
      ∀ v ∈ db.users, isAdminOrClerk v = true → u.id ≤ v.id) ∧
    (earliestAdminClerk db = none →
      db.users.find? (fun u => u.email == "system@example.com") = none →
      ∃ sys : User, sys.role = "admin" ∧
        _resolve_created_by db none =
          .ok ({ db with users := db.users ++ [sys] }, sys.id)) := by
  have heq : ∀ cid, _resolve_created_by db (some cid) =
      (match db.users.find? (fun u => u.id == cid) with
       | some user =>
         if isAdminOrClerk user then .ok (db, cid) else .error .forbidden
       | none => resolve_fallback db) := fun _ => rfl
  have heqn : _resolve_created_by db none = resolve_fallback db := rfl
  refine ⟨?_, ?_, ?_, ?_, ?_⟩
  · intro cid u hu hrole
    rw [heq cid, hu]
    simp [hrole]
  · intro cid u hu hrole
    rw [heq cid, hu]
    simp [hrole]
  · intro cid hu
    rw [heq cid, hu, heqn]
  · intro u hu
    have humem : u ∈ (db.users.filter isAdminOrClerk).argmin (·.id) := by
      rw [earliestAdminClerk] at hu
      simpa using hu
    have humem2 : u ∈ db.users.filter isAdminOrClerk := List.argmin_mem humem
    have hadm : isAdminOrClerk u = true := (List.mem_filter.mp humem2).2
    refine ⟨?_, hadm, ?_⟩
    · rw [heqn]
      unfold resolve_fallback
      rw [hu]
    · intro v hv hvadm
      have hvmem : v ∈ db.users.filter isAdminOrClerk :=
        List.mem_filter.mpr ⟨hv, hvadm⟩
      exact List.le_of_mem_argmin hvmem humem
  · intro hnone hsys
    refine ⟨{ id := freshId (db.users.map (·.id)),
              email := "system@example.com", role := "admin" }, rfl, ?_⟩
    rw [heqn]
    unfold resolve_fallback
    rw [hnone, hsys]

/-- Witness for C9 on `dbAdminAndStudent` (admin id 1, student-role id 2):
the explicit-admin, explicit-wrong-role, dangling-id and earliest-fallback
conjuncts, and the synthesis conjunct on the empty database. -/
theorem C9_resolve_created_by_witness :
    _resolve_created_by dbAdminAndStudent (some 1) = .ok (dbAdminAndStudent, 1) ∧
    _resolve_created_by dbAdminAndStudent (some 2) = .error .forbidden ∧
    _resolve_created_by dbAdminAndStudent (some 99) =
      _resolve_created_by dbAdminAndStudent none ∧
    _resolve_created_by dbAdminAndStudent none = .ok (dbAdminAndStudent, 1) ∧
    (∃ sys : User, sys.role = "admin" ∧
      _resolve_created_by dbEmpty none =
        .ok ({ dbEmpty with users := dbEmpty.users ++ [sys] }, sys.id)) := by
  refine ⟨(C9_resolve_created_by dbAdminAndStudent).1 1 ⟨1, "admin@example.com", "admin"⟩
      (by decide) (by decide),
    (C9_resolve_created_by dbAdminAndStudent).2.1 2 ⟨2, "kid@example.com", "student"⟩
      (by decide) (by decide),
    (C9_resolve_created_by dbAdminAndStudent).2.2.1 99 (by decide),
    ((C9_resolve_created_by dbAdminAndStudent).2.2.2.1 ⟨1, "admin@example.com", "admin"⟩
      (by decide)).1,
    (C9_resolve_created_by dbEmpty).2.2.2.2 (by decide) (by decide)⟩

/-! ### C4 -/

/-- C4: invoice generation is idempotent in `invoice_no`.  If a row with the
(trimmed) number already exists, `generate_invoice_for_student` returns that
row with the database untouched (only PDFs are re-rendered), and
`create_invoice` — the insert-or-get the race resolution relies on —
likewise returns the existing row without inserting or raising. -/
theorem C4_invoice_idempotent (db : DB) (student_id : Nat)
    (invoice_no period : String) (amount : Option Int)
    (payment : Option PaymentRequest) (gen : String) (existing : FeeInvoice)
    (h : get_invoice_by_no db invoice_no = some existing) :
    generate_invoice_for_student db student_id invoice_no period amount
      payment gen = (db, existing) ∧
    create_invoice db student_id invoice_no period 0 = (db, existing) ∧
    existing.invoice_no = stripStr invoice_no := by
  have h2 : db.invoices.find? (fun i => i.invoice_no == stripStr invoice_no)
      = some existing := h
  refine ⟨?_, ?_, ?_⟩
  · simp only [generate_invoice_for_student, h]
  · simp only [create_invoice, h2]
  · have := List.find?_some h2
    simpa using this

/-- Witness for C4: `dbFailedPayment` already holds invoice "INV-1"; both
calls return it unchanged. -/
theorem C4_invoice_idempotent_witness :
    generate_invoice_for_student dbFailedPayment 7 "INV-1" "2025-02" none
      none "G" = (dbFailedPayment, ⟨1, 1, "INV-1", "2025-01", 100, "pending"⟩) ∧
    create_invoice dbFailedPayment 7 "INV-1" "2025-02" 0
      = (dbFailedPayment, ⟨1, 1, "INV-1", "2025-01", 100, "pending"⟩) ∧
    (⟨1, 1, "INV-1", "2025-01", 100, "pending"⟩ : FeeInvoice).invoice_no
      = stripStr "INV-1" := by
  exact C4_invoice_idempotent dbFailedPayment 7 "INV-1" "2025-02" none none "G"
    ⟨1, 1, "INV-1", "2025-01", 100, "pending"⟩ (by decide)

/-! ### The webhook success-path run shape (used by C5 and C10). -/

/-- On the success path (valid signature, invoice found, fresh idempotency
key, no transaction-id collision, fresh receipt number) the webhook leaves
behind exactly `webhookFinalDB` and reports ok or renderFailed according to
the render outcome. -/
theorem webhook_run (db : DB) (payload : WebhookPayload) (iid : Nat)
    (invoice : FeeInvoice) (g n : String) (ren : Bool)
    (hiid : payload.invoice_id = some iid)
    (hinv : db.invoices.find? (fun i => i.id == iid) = some invoice)
    (hkey : (db.payments.any (fun q => q.idempotency_key ==
        some (payload.idempotency_key.getD (payload.provider_txn_id.getD g))))
        = false)
    (htxn : (db.payments.any (fun q => q.provider == "fake" &&
        q.provider_txn_id == payload.provider_txn_id.getD g)) = false)
    (hrc : (db.receipts.any (fun r => r.receipt_no == n)) = false) :
    handle_webhook_mark_paid db payload true g n ren =
      (webhookFinalDB db payload iid invoice g n,
       if ren then WebhookResult.ok n ("receipts/" ++ n ++ ".pdf")
       else WebhookResult.renderFailed n) := by
  have hreceipts : ∀ c : Prop, ∀ h : Decidable c, ∀ a b : DB,
      (@ite DB c h a b).receipts = if c then a.receipts else b.receipts :=
    fun c h a b => apply_ite DB.receipts c a b
  simp only [handle_webhook_mark_paid, webhookFinalDB, webhookInsertedPayment,
    create_payment, create_receipt_row, hiid, hinv, hkey, htxn,
    Bool.not_true, Bool.false_eq_true, if_false, hreceipts, mark_invoice_paid,
    ite_self, hrc]
  cases ren <;> rfl

/-- Payments after a successful webhook: the old rows plus the inserted one. -/
theorem webhookFinalDB_payments (db : DB) (payload : WebhookPayload)
    (iid : Nat) (invoice : FeeInvoice) (g n : String) :
    (webhookFinalDB db payload iid invoice g n).payments =
      db.payments ++ [webhookInsertedPayment db payload iid invoice g] := by
  unfold webhookFinalDB
  dsimp only
  split <;> rfl

/-- Receipts after a successful webhook: the old rows plus the committed
receipt for the inserted payment. -/
theorem webhookFinalDB_receipts (db : DB) (payload : WebhookPayload)
    (iid : Nat) (invoice : FeeInvoice) (g n : String) :
    (webhookFinalDB db payload iid invoice g n).receipts =
      db.receipts ++
        [{ id := freshId (db.receipts.map (·.id)),
           payment_id := freshId (db.payments.map (·.id)),
           receipt_no := n, pdf_path := "receipts/" ++ n ++ ".pdf",
           created_by := none }] := by
  unfold webhookFinalDB
  dsimp only
  split <;> rfl

/-- Invoices after a successful webhook: marked paid exactly when the
cumulative total including the new payment reaches `amount_due`. -/
theorem webhookFinalDB_invoices (db : DB) (payload : WebhookPayload)
    (iid : Nat) (invoice : FeeInvoice) (g n : String) :
    (webhookFinalDB db payload iid invoice g n).invoices =
      if _paid_total_for_invoice
          { db with payments := db.payments ++
              [webhookInsertedPayment db payload iid invoice g] } iid
          ≥ invoice.amount_due then
        db.invoices.map
          (fun i => if i.id == invoice.id then { i with status := "paid" } else i)
      else db.invoices := by
  unfold webhookFinalDB mark_invoice_paid
  dsimp only
  split <;> rfl

/-- Marking an invoice paid does not change which row a lookup by id finds. -/
theorem markUpd_id_beq (invoice : FeeInvoice) (iid : Nat) :
    ∀ x : FeeInvoice,
      ((if x.id == invoice.id then { x with status := "paid" } else x).id == iid)
        = (x.id == iid) := by
  intro x
  by_cases hx : (x.id == invoice.id) = true
  · simp [hx]
  · simp [hx]

/-! ### C10 -/

/-- C10: an accepted webhook whose payload amount is absent, null or zero
records a payment over the invoice's full `amount_due` (Python's
`_decimal(...) or amount_due` treats `Decimal("0")` as falsy), and —
provided the invoice's earlier payments do not sum to a negative number —
that single webhook marks the invoice paid. -/
theorem C10_webhook_amount_defaults (db : DB) (payload : WebhookPayload)
    (iid : Nat) (invoice : FeeInvoice) (g n : String) (ren : Bool)
    (hiid : payload.invoice_id = some iid)
    (hinv : db.invoices.find? (fun i => i.id == iid) = some invoice)
    (hamt : payload.amount = none ∨ payload.amount = some 0)
    (hkey : (db.payments.any (fun q => q.idempotency_key ==
        some (payload.idempotency_key.getD (payload.provider_txn_id.getD g))))
        = false)
    (htxn : (db.payments.any (fun q => q.provider == "fake" &&
        q.provider_txn_id == payload.provider_txn_id.getD g)) = false)
    (hrc : (db.receipts.any (fun r => r.receipt_no == n)) = false)
    (hprior : 0 ≤ ((db.payments.filter (fun p => p.fee_invoice_id == iid)).map
        (fun p => p.amount)).sum) :
    (∃ pay : Payment,
      (handle_webhook_mark_paid db payload true g n ren).1.payments
        = db.payments ++ [pay] ∧
      pay.amount = invoice.amount_due ∧ pay.fee_invoice_id = iid ∧
      pay.status = "captured") ∧
    (∃ inv2 : FeeInvoice,
      (handle_webhook_mark_paid db payload true g n ren).1.invoices.find?
        (fun i => i.id == iid) = some inv2 ∧ inv2.status = "paid") := by
  have hrun := webhook_run db payload iid invoice g n ren hiid hinv hkey htxn hrc
  have hfst : (handle_webhook_mark_paid db payload true g n ren).1 =
      webhookFinalDB db payload iid invoice g n := by rw [hrun]
  have hdec : decimalOr payload.amount invoice.amount_due = invoice.amount_due := by
    rcases hamt with h0 | h0 <;> simp [decimalOr, h0]
  have hpayamt : (webhookInsertedPayment db payload iid invoice g).amount
      = invoice.amount_due := by
    simp [webhookInsertedPayment, hdec]
  have hc : _paid_total_for_invoice
      { db with payments := db.payments ++
          [webhookInsertedPayment db payload iid invoice g] } iid
      ≥ invoice.amount_due := by
    have htot : _paid_total_for_invoice
        { db with payments := db.payments ++
            [webhookInsertedPayment db payload iid invoice g] } iid
        = ((db.payments.filter (fun p => p.fee_invoice_id == iid)).map
            (fun p => p.amount)).sum + invoice.amount_due := by
      simp [_paid_total_for_invoice, webhookInsertedPayment, hdec,
        List.filter_append]
    rw [htot, ge_iff_le, le_add_iff_nonneg_left]
    exact hprior
  constructor
  · exact ⟨webhookInsertedPayment db payload iid invoice g,
      by rw [hfst, webhookFinalDB_payments], hpayamt, rfl, rfl⟩
  · refine ⟨{ invoice with status := "paid" }, ?_, rfl⟩
    rw [hfst, webhookFinalDB_invoices, if_pos hc,
      find?_map_comm _ _ (markUpd_id_beq invoice iid) db.invoices, hinv]
    simp

/-- Witness for C10: on `dbWebhook` (one pending invoice of 100, no
payments), a webhook with an absent amount records a payment of 100 and the
invoice comes out paid. -/
theorem C10_webhook_amount_defaults_witness :
    (∃ pay : Payment,
      (handle_webhook_mark_paid dbWebhook
          { invoice_id := some 1, provider_txn_id := some "T",
            amount := none, idempotency_key := some "K" }
          true "G" "R1" true).1.payments = dbWebhook.payments ++ [pay] ∧
      pay.amount = (100 : Int) ∧ pay.fee_invoice_id = 1 ∧
      pay.status = "captured") ∧
    (∃ inv2 : FeeInvoice,
      (handle_webhook_mark_paid dbWebhook
          { invoice_id := some 1, provider_txn_id := some "T",
            amount := none, idempotency_key := some "K" }
          true "G" "R1" true).1.invoices.find? (fun i => i.id == 1)
        = some inv2 ∧ inv2.status = "paid") := by
  exact C10_webhook_amount_defaults dbWebhook
    { invoice_id := some 1, provider_txn_id := some "T", amount := none,
      idempotency_key := some "K" }
    1 ⟨1, 1, "INV-1", "2025-01", 100, "pending"⟩ "G" "R1" true rfl (by decide)
    (Or.inl rfl) (by decide) (by decide) (by decide) (by decide)

/-! ### C5 -/

/-- C5: webhook idempotency.  Starting from a state with no payment under
key `k`, a first accepted webhook carrying `k` inserts exactly one payment
row with that key; a second webhook carrying the same `k` returns
`{status: ignored, reason: idempotent replay}` without touching the state;
and a webhook that passes the key check (fresh key `k3`) but collides on the
unique `(provider, provider_txn_id)` constraint at insert time is caught,
rolled back and likewise reported ignored with the state unchanged. -/
theorem C5_webhook_idempotency (db : DB) (p1 p2 p3 : WebhookPayload)
    (iid : Nat) (inv : FeeInvoice) (k k3 : String)
    (g1 g2 g3 n1 n2 n3 : String) (ren1 ren2 ren3 : Bool)
    (hk1 : p1.idempotency_key = some k)
    (hk2 : p2.idempotency_key = some k)
    (hk3 : p3.idempotency_key = some k3)
    (hiid1 : p1.invoice_id = some iid)
    (hiid2 : p2.invoice_id = some iid)
    (hiid3 : p3.invoice_id = some iid)
    (hinv : db.invoices.find? (fun i => i.id == iid) = some inv)
    (hfresh : (db.payments.any (fun q => q.idempotency_key == some k)) = false)
    (htxn : (db.payments.any (fun q => q.provider == "fake" &&
        q.provider_txn_id == p1.provider_txn_id.getD g1)) = false)
    (hrc : (db.receipts.any (fun r => r.receipt_no == n1)) = false)
    (hk3ne : (k == k3) = false)
    (hk3fresh : (db.payments.any (fun q => q.idempotency_key == some k3)) = false)
    (htxn3 : p3.provider_txn_id = some (p1.provider_txn_id.getD g1)) :
    (((handle_webhook_mark_paid db p1 true g1 n1 ren1).1.payments.filter
        (fun q => q.idempotency_key == some k)).length = 1) ∧
    (handle_webhook_mark_paid (handle_webhook_mark_paid db p1 true g1 n1 ren1).1
        p2 true g2 n2 ren2
      = ((handle_webhook_mark_paid db p1 true g1 n1 ren1).1,
         WebhookResult.ignored)) ∧
    (handle_webhook_mark_paid (handle_webhook_mark_paid db p1 true g1 n1 ren1).1
        p3 true g3 n3 ren3
      = ((handle_webhook_mark_paid db p1 true g1 n1 ren1).1,
         WebhookResult.ignored)) := by
  have hkey1 : (db.payments.any (fun q => q.idempotency_key ==
      some (p1.idempotency_key.getD (p1.provider_txn_id.getD g1)))) = false := by
    rw [hk1]
    exact hfresh
  have hrun := webhook_run db p1 iid inv g1 n1 ren1 hiid1 hinv hkey1 htxn hrc
  have hfst : (handle_webhook_mark_paid db p1 true g1 n1 ren1).1 =
      webhookFinalDB db p1 iid inv g1 n1 := by rw [hrun]
  have hD1pay : (webhookFinalDB db p1 iid inv g1 n1).payments =
      db.payments ++ [webhookInsertedPayment db p1 iid inv g1] :=
    webhookFinalDB_payments db p1 iid inv g1 n1
  have hfilnil : db.payments.filter (fun q => q.idempotency_key == some k) = [] := by
    rw [List.filter_eq_nil_iff]
    intro a ha
    exact (List.any_eq_false.mp hfresh) a ha
  have hD1find : ∃ v, (webhookFinalDB db p1 iid inv g1 n1).invoices.find?
      (fun i => i.id == iid) = some v := by
    rw [webhookFinalDB_invoices]
    by_cases hc : _paid_total_for_invoice
        { db with payments := db.payments ++
            [webhookInsertedPayment db p1 iid inv g1] } iid ≥ inv.amount_due
    · rw [if_pos hc, find?_map_comm _ _ (markUpd_id_beq inv iid) db.invoices, hinv]
      exact ⟨_, rfl⟩
    · rw [if_neg hc, hinv]
      exact ⟨_, rfl⟩
  obtain ⟨v, hv⟩ := hD1find
  have hD1any : ((webhookFinalDB db p1 iid inv g1 n1).payments.any
      (fun q => q.idempotency_key == some k)) = true := by
    rw [hD1pay]
    simp [webhookInsertedPayment, hk1]
  have hD1any3 : ((webhookFinalDB db p1 iid inv g1 n1).payments.any
      (fun q => q.idempotency_key == some k3)) = false := by
    rw [hD1pay]
    simp [List.any_append, webhookInsertedPayment, hk1, hk3fresh, hk3ne]
  have hD1txn : ((webhookFinalDB db p1 iid inv g1 n1).payments.any
      (fun q => q.provider == "fake" &&
        q.provider_txn_id == p3.provider_txn_id.getD g3)) = true := by
    rw [hD1pay, htxn3]
    simp [webhookInsertedPayment]
  refine ⟨?_, ?_, ?_⟩
  · rw [hfst, hD1pay, List.filter_append, hfilnil]
    simp [webhookInsertedPayment, hk1]
  · rw [hfst]
    simp only [handle_webhook_mark_paid, hiid2, hv, hk2, Option.getD_some,
      hD1any, Bool.not_true, Bool.false_eq_true, if_false, if_true]
  · rw [hfst]
    simp only [handle_webhook_mark_paid, create_payment, hiid3, hv, hk3,
      Option.getD_some, hD1any3, hD1txn, Bool.not_true, Bool.false_eq_true,
      if_false, if_true]

/-- Witness for C5: on `dbWebhook`, a first webhook with key "K" (partial
amount 40), a replay with key "K", and a race webhook with fresh key "K2"
re-using transaction id "T". -/
theorem C5_webhook_idempotency_witness :
    (((handle_webhook_mark_paid dbWebhook
        { invoice_id := some 1, provider_txn_id := some "T", amount := some 40,
          idempotency_key := some "K" } true "G1" "R1" true).1.payments.filter
        (fun q => q.idempotency_key == some "K")).length = 1) ∧
    (handle_webhook_mark_paid (handle_webhook_mark_paid dbWebhook
        { invoice_id := some 1, provider_txn_id := some "T", amount := some 40,
          idempotency_key := some "K" } true "G1" "R1" true).1
        { invoice_id := some 1, provider_txn_id := some "T2", amount := some 60,
          idempotency_key := some "K" } true "G2" "R2" true
      = ((handle_webhook_mark_paid dbWebhook
          { invoice_id := some 1, provider_txn_id := some "T", amount := some 40,
            idempotency_key := some "K" } true "G1" "R1" true).1,
         WebhookResult.ignored)) ∧
    (handle_webhook_mark_paid (handle_webhook_mark_paid dbWebhook
        { invoice_id := some 1, provider_txn_id := some "T", amount := some 40,
          idempotency_key := some "K" } true "G1" "R1" true).1
        { invoice_id := some 1, provider_txn_id := some "T", amount := none,
          idempotency_key := some "K2" } true "G3" "R3" true
      = ((handle_webhook_mark_paid dbWebhook
          { invoice_id := some 1, provider_txn_id := some "T", amount := some 40,
            idempotency_key := some "K" } true "G1" "R1" true).1,
         WebhookResult.ignored)) := by
  exact C5_webhook_idempotency dbWebhook
    { invoice_id := some 1, provider_txn_id := some "T", amount := some 40,
      idempotency_key := some "K" }
    { invoice_id := some 1, provider_txn_id := some "T2", amount := some 60,
      idempotency_key := some "K" }
    { invoice_id := some 1, provider_txn_id := some "T", amount := none,
      idempotency_key := some "K2" }
    1 ⟨1, 1, "INV-1", "2025-01", 100, "pending"⟩ "K" "K2"
    "G1" "G2" "G3" "R1" "R2" "R3" true true true
    rfl rfl rfl rfl rfl rfl (by decide) (by decide) (by decide) (by decide)
    (by decide) (by decide) rfl

/-! ### C6 -/

/-- `resolve_fallback` never touches the receipts table. -/
theorem resolve_fallback_receipts (db d : DB) (uid : Nat)
    (h : resolve_fallback db = .ok (d, uid)) : d.receipts = db.receipts := by
  unfold resolve_fallback at h
  cases he : earliestAdminClerk db with
  | some u =>
    simp only [he, Except.ok.injEq, Prod.mk.injEq] at h
    obtain ⟨h4, h5⟩ := h
    subst h4
    rfl
  | none =>
    simp only [he] at h
    cases hf : db.users.find? (fun u => u.email == "system@example.com") with
    | some ex =>
      simp only [hf, Except.ok.injEq, Prod.mk.injEq] at h
      obtain ⟨h4, h5⟩ := h
      subst h4
      rfl
    | none =>
      simp only [hf, Except.ok.injEq, Prod.mk.injEq] at h
      obtain ⟨h4, h5⟩ := h
      subst h4
      rfl

/-- `_resolve_created_by` never touches the receipts table. -/
theorem resolve_receipts (db : DB) (cb : Option Nat) (d : DB) (uid : Nat)
    (h : _resolve_created_by db cb = .ok (d, uid)) : d.receipts = db.receipts := by
  cases cb with
  | none => exact resolve_fallback_receipts db d uid h
  | some cid =>
    have h2 : (match db.users.find? (fun u => u.id == cid) with
        | some user =>
          if isAdminOrClerk user then
            Except.ok (db, cid)
          else Except.error SvcError.forbidden
        | none => resolve_fallback db) = Except.ok (d, uid) := h
    cases hf : db.users.find? (fun u => u.id == cid) with
    | some user =>
      simp only [hf] at h2
      by_cases hr : isAdminOrClerk user = true
      · rw [if_pos hr] at h2
        simp only [Except.ok.injEq, Prod.mk.injEq] at h2
        obtain ⟨h4, h5⟩ := h2
        subst h4
        rfl
      · rw [if_neg hr] at h2
        cases h2
    | none =>
      simp only [hf] at h2
      exact resolve_fallback_receipts db d uid h2

/-- Rewriting a receipt's `pdf_path` does not change which row a lookup by
`payment_id` finds. -/
theorem updPdf_beq (rid : Nat) (path : String) (pid : Nat) :
    ∀ x : Receipt,
      ((if x.id == rid then { x with pdf_path := path } else x).payment_id == pid)
        = (x.payment_id == pid) := by
  intro x
  by_cases hx : (x.id == rid) = true
  · simp [hx]
  · simp [hx]

/-- Success shape of `create_receipt_and_render`: the returned receipt is the
row a lookup by `payment_id` finds in the returned state, and its `pdf_path`
is the deterministic path derived from its own `receipt_no`. -/
theorem crr_ok_find (db : DB) (pid : Nat) (rno : Option String)
    (cb : Option Nat) (g : String) (ren : Bool) (db2 : DB) (r : Receipt)
    (h : create_receipt_and_render db pid rno cb g ren = (db2, .ok r)) :
    db2.receipts.find? (fun x => x.payment_id == pid) = some r ∧
    r.pdf_path = _compute_pdf_path r.receipt_no := by
  unfold create_receipt_and_render at h
  cases hval : validate_payment_for_receipt db pid with
  | error e => simp only [hval] at h; simp at h
  | ok payment =>
    simp only [hval] at h
    by_cases hz : payment.fee_invoice_id = 0
    · rw [if_pos hz] at h; simp at h
    · rw [if_neg hz] at h
      cases hinv : db.invoices.find? (fun i => i.id == payment.fee_invoice_id) with
      | none => simp only [hinv] at h; simp at h
      | some invoice =>
        simp only [hinv] at h
        cases hres : _resolve_created_by db cb with
        | error e => simp only [hres] at h; simp at h
        | ok pr =>
          obtain ⟨db1r, uid⟩ := pr
          simp only [hres] at h
          cases hfind : db1r.receipts.find? (fun x => x.payment_id == pid) with
          | some existing =>
            simp only [hfind] at h
            cases ren with
            | false => simp at h
            | true =>
              simp only [Bool.not_true, Bool.false_eq_true, if_false,
                Prod.mk.injEq, Except.ok.injEq] at h
              obtain ⟨hdb2, hr⟩ := h
              subst hdb2
              subst hr
              constructor
              · show (db1r.receipts.map _).find? _ = _
                rw [find?_map_comm _ _
                  (updPdf_beq existing.id (_compute_pdf_path existing.receipt_no) pid)
                  db1r.receipts, hfind]
                simp
              · rfl
          | none =>
            simp only [hfind] at h
            by_cases hdup : (db1r.receipts.any
                (fun x => x.receipt_no == rno.getD g)) = true
            · rw [if_pos hdup] at h; simp at h
            · rw [if_neg hdup] at h
              cases ren with
              | false => simp at h
              | true =>
                simp only [Bool.not_true, Bool.false_eq_true, if_false,
                  Prod.mk.injEq, Except.ok.injEq] at h
                obtain ⟨hdb2, hr⟩ := h
                subst hdb2
                subst hr
                constructor
                · show ((db1r.receipts ++ _).map _).find? _ = _
                  rw [List.map_append, List.find?_append, find?_map_comm _ _
                    (updPdf_beq (freshId (db1r.receipts.map (·.id)))
                      (_compute_pdf_path (rno.getD g)) pid) db1r.receipts, hfind]
                  simp
                · rfl

/-- When a receipt for the payment already exists, a successful
`create_receipt_and_render` returns that row (with its `pdf_path`
re-derived from its own `receipt_no`) and allocates no new row. -/
theorem crr_ok_existing (db : DB) (pid : Nat) (rno : Option String)
    (cb : Option Nat) (g : String) (ren : Bool) (db2 : DB) (r rE : Receipt)
    (hfind : db.receipts.find? (fun x => x.payment_id == pid) = some rE)
    (h : create_receipt_and_render db pid rno cb g ren = (db2, .ok r)) :
    r = { rE with pdf_path := _compute_pdf_path rE.receipt_no } ∧
    db2.receipts.length = db.receipts.length := by
  unfold create_receipt_and_render at h
  cases hval : validate_payment_for_receipt db pid with
  | error e => simp only [hval] at h; simp at h
  | ok payment =>
    simp only [hval] at h
    by_cases hz : payment.fee_invoice_id = 0
    · rw [if_pos hz] at h; simp at h
    · rw [if_neg hz] at h
      cases hinv : db.invoices.find? (fun i => i.id == payment.fee_invoice_id) with
      | none => simp only [hinv] at h; simp at h
      | some invoice =>
        simp only [hinv] at h
        cases hres : _resolve_created_by db cb with
        | error e => simp only [hres] at h; simp at h
        | ok pr =>
          obtain ⟨db1r, uid⟩ := pr
          simp only [hres] at h
          have hrec : db1r.receipts = db.receipts :=
            resolve_receipts db cb db1r uid hres
          rw [hrec] at h
          simp only [hfind] at h
          cases ren with
          | false => simp at h
          | true =>
            simp only [Bool.not_true, Bool.false_eq_true, if_false,
              Prod.mk.injEq, Except.ok.injEq] at h
            obtain ⟨hdb2, hr⟩ := h
            subst hdb2
            subst hr
            refine ⟨rfl, ?_⟩
            show (db.receipts.map _).length = db.receipts.length
            rw [List.length_map]

/-- C6: one receipt per payment.  If two consecutive calls of
`create_receipt_and_render` for the same `payment_id` both succeed, the
second returns the very receipt of the first (same id, same number, same
PDF path — the path derived from the existing receipt's `receipt_no`) and
allocates no new row. -/
theorem C6_receipt_idempotent (db : DB) (pid : Nat)
    (rno1 rno2 : Option String) (cb1 cb2 : Option Nat) (g1 g2 : String)
    (ren1 ren2 : Bool) (db1 db2 : DB) (r1 r2 : Receipt)
    (h1 : create_receipt_and_render db pid rno1 cb1 g1 ren1 = (db1, .ok r1))
    (h2 : create_receipt_and_render db1 pid rno2 cb2 g2 ren2 = (db2, .ok r2)) :
    r2.id = r1.id ∧ r2.receipt_no = r1.receipt_no ∧
    r2.pdf_path = r1.pdf_path ∧
    r2.pdf_path = _compute_pdf_path r1.receipt_no ∧
    db2.receipts.length = db1.receipts.length := by
  obtain ⟨hf1, hp1⟩ := crr_ok_find db pid rno1 cb1 g1 ren1 db1 r1 h1
  obtain ⟨hr2, hlen⟩ := crr_ok_existing db1 pid rno2 cb2 g2 ren2 db2 r2 r1 hf1 h2
  subst hr2
  exact ⟨rfl, rfl, hp1.symm, rfl, hlen⟩

/-- Witness for C6 on `dbReceipt`: both calls succeed; the second returns
receipt id 1 with the unchanged path "receipts/R1.pdf". -/
theorem C6_receipt_idempotent_witness :
    ∃ (db1 db2 : DB) (r1 r2 : Receipt),
      create_receipt_and_render dbReceipt 1 none none "R1" true
        = (db1, .ok r1) ∧
      create_receipt_and_render db1 1 none none "R2" true = (db2, .ok r2) ∧
      (r2.id = r1.id ∧ r2.receipt_no = r1.receipt_no ∧
       r2.pdf_path = r1.pdf_path ∧
       r2.pdf_path = _compute_pdf_path r1.receipt_no ∧
       db2.receipts.length = db1.receipts.length) ∧
      r1.id = 1 ∧ r1.pdf_path = "receipts/R1.pdf" := by
  refine ⟨{ dbReceipt with receipts := [⟨1, 1, "R1", "receipts/R1.pdf", some 1⟩] },
    { dbReceipt with receipts := [⟨1, 1, "R1", "receipts/R1.pdf", some 1⟩] },
    ⟨1, 1, "R1", "receipts/R1.pdf", some 1⟩,
    ⟨1, 1, "R1", "receipts/R1.pdf", some 1⟩, rfl, rfl,
    C6_receipt_idempotent dbReceipt 1 none none none none "R1" "R2" true true
      _ _ _ _ rfl rfl, rfl, rfl⟩

end SchoolFlow
